import Mathlib

/-!
# purefa input plugin: Init and Gather

A shallow embedding of `plugins/inputs/purefa/purefa.go`.

* Go strings are Lean strings, `len` is the byte length.
* `time.Duration` is an integer number of nanoseconds.
* A method with a pointer receiver that mutates it becomes a function that
  returns the receiver after the call together with what the call returned.
* The accumulator is the list of records pushed so far, oldest first.
* The network, the URL parser and the JSON decoder are parameters (`Env`).
-/

namespace purefa

/-! ## Data model -/

/-- Nanoseconds, as in `time.Duration`. -/
abbrev Duration := Int

/-- The constant `time.Second`. -/
def Second : Duration := 1000000000

/-- Byte length of a string, the builtin `len`. -/
def len (s : String) : Nat := s.utf8ByteSize

/-- The part of `http.Transport` that the plugin sets. -/
structure Transport where
  ResponseHeaderTimeout : Duration
deriving DecidableEq, Repr

/-- The part of `http.Client` that the plugin sets. -/
structure Client where
  Transport : Transport
  Timeout : Duration
deriving DecidableEq, Repr

/-- The plugin structure `PureFA`. The pointer field `client` is `none` when nil. -/
structure PureFA where
  Array : String
  APIToken : String
  /-- Modelled from the spec: the field `URL` is read and written by `Init` and read by
  `Gather`, and the struct declaration of the source does not list it; it is the base
  URL of the configuration (section 3, "baseURL: string (derived if empty)"). -/
  URL : String
  HTTPTimeout : Duration
  client : Option Client
deriving DecidableEq, Repr

/-- The volume structure `pureVols`. -/
structure pureVols where
  Created : String
  Name : String
  Serial : String
  Size : Int
deriving DecidableEq, Repr

/-- The errors that `Init` and `Gather` build or pass on, one constructor per
return site. -/
inductive Error where
  /-- The error of `Init`, line 65. -/
  | noToken
  /-- An error returned by `http.NewRequest`, passed on as is, line 85. -/
  | request (cause : String)
  /-- An error returned by `client.Do`, passed on as is, line 90. -/
  | transport (cause : String)
  /-- The status 403 error, line 97. -/
  | forbidden (code : Int)
  /-- The error for any other status that is not 200, line 99. -/
  | unexpectedStatus (code : Int)
  /-- The decode error, line 104, holding the error of the decoder. -/
  | decode (cause : String)
deriving DecidableEq, Repr

/-- The text of an error, as `fmt.Errorf` formats it. -/
def Error.msg : Error → String
  | .noToken => "You must specify an API Token"
  | .request cause => cause
  | .transport cause => cause
  | .forbidden code =>
      "Pure Array responded with " ++ toString code ++ " [Forbidden], verify your authToken"
  | .unexpectedStatus code =>
      "Pure Array responded with unexpected status code " ++ toString code
  | .decode cause => "unable to decode Pure volume response: " ++ cause

/-- How a call ends: it returns an error value (`none` is nil), or it panics. -/
inductive Outcome where
  | returned (err : Option Error)
  | panicked
deriving DecidableEq, Repr

/-! ## NewPureFA and Init -/

/-- The constructor `NewPureFA`: a client with a 3s response header timeout and a 4s
overall timeout; every other field has its zero value. -/
def NewPureFA : PureFA :=
  let tr : Transport := { ResponseHeaderTimeout := 3 * Second }
  let client : Client := { Transport := tr, Timeout := 4 * Second }
  { Array := "", APIToken := "", URL := "", HTTPTimeout := 0, client := some client }

/-- The method `Init`. The first component is the receiver after the call. The
assignment to `t.client.Timeout` dereferences `t.client` and panics when it is nil. -/
def Init (t : PureFA) : PureFA × Outcome :=
  if len t.APIToken == 0 then
    (t, .returned (some .noToken))
  else
    let t := if len t.URL == 0 then { t with URL := "https://" ++ t.Array ++ "/api/1.15" } else t
    let t := if t.HTTPTimeout == 0 then { t with HTTPTimeout := Second * 4 } else t
    match t.client with
    | none => (t, .panicked)
    | some c => ({ t with client := some { c with Timeout := t.HTTPTimeout } }, .returned none)

/-- The base URL after a call of `Init` that passes the token check. -/
def derivedURL (t : PureFA) : String :=
  if len t.URL = 0 then "https://" ++ t.Array ++ "/api/1.15" else t.URL

/-- The request timeout after a call of `Init` that passes the token check. -/
def derivedTimeout (t : PureFA) : Duration :=
  if t.HTTPTimeout = 0 then Second * 4 else t.HTTPTimeout

/-! ## The list request, the accumulator and Gather -/

/-- The part of `http.Request` that the plugin sets. -/
structure Request where
  Method : String
  URL : String
  Header : List (String × String)
deriving DecidableEq, Repr

/-- The part of `http.Response` that the plugin reads. -/
structure Response where
  StatusCode : Int
  Body : String
deriving DecidableEq, Repr

/-- The constant `http.StatusOK`. -/
def StatusOK : Int := 200

/-- The constant `http.StatusForbidden`. -/
def StatusForbidden : Int := 403

/-- A value of a metric field (`interface{}` in the source). -/
inductive FieldValue where
  | int (n : Int)
  | str (s : String)
deriving DecidableEq, Repr

/-- One call of `AddFields`, as the accumulator receives it. Maps are association
lists. -/
structure Record where
  measurement : String
  fields : List (String × FieldValue)
  tags : List (String × String)
deriving DecidableEq, Repr

/-- The accumulator `telegraf.Accumulator`: the records pushed so far, oldest first. -/
abbrev Accumulator := List Record

/-- The method `AddFields` of the accumulator. -/
def Accumulator.AddFields (acc : Accumulator) (measurement : String)
    (fields : List (String × FieldValue)) (tags : List (String × String)) : Accumulator :=
  acc ++ [{ measurement := measurement, fields := fields, tags := tags }]

/-- What `Gather` calls and the source does not define. -/
structure Env where
  /-- The URL check of `http.NewRequest`: the error for a URL that does not parse. -/
  parseURL : String → Option String
  /-- Modelled from the spec: the call `json.NewDecoder(resp.Body).Decode(&stats)`. The
  source declares no `stats`; the body is a JSON array of volume objects (section 6),
  so the decoder yields a list of volumes, or an error on malformed or type-mismatched
  input (section 4.3). -/
  Decode : String → Except String (List pureVols)
  /-- Modelled from the spec: the performance extraction of section 4.5, which yields
  one record for a volume or fails. -/
  Performance : PureFA → pureVols → Except String Record

/-- The identifier `r` that `Gather` reads at lines 87 and 88. The source declares no
`r` (the receiver of `Gather` is `t`), so it is a parameter with the two members that
are read: the string `AuthToken`, and `Do`, the result of `r.client.Do` on a request
(a response, or a transport error). -/
structure Receiver where
  AuthToken : String
  Do : Request → Except String Response

/-- The function `http.NewRequest` with a nil body: it fails when the URL does not
parse, and otherwise gives a request with that method and URL and no header. -/
def NewRequest (env : Env) (method url : String) : Except String Request :=
  match env.parseURL url with
  | some err => .error err
  | none => .ok { Method := method, URL := url, Header := [] }

/-- The method `Header.Set`: the entry for the key is replaced. -/
def Header.Set (h : List (String × String)) (key value : String) : List (String × String) :=
  (key, value) :: h.filter (fun kv => kv.1 != key)

/-- Lines 83 to 87 of `Gather`: the request that is handed to `r.client.Do`, or the
error of `http.NewRequest`. -/
def listRequest (env : Env) (r : Receiver) (t : PureFA) : Except String Request :=
  match NewRequest env "GET" (t.URL ++ "/volume") with
  | .error err => .error err
  | .ok req => .ok { req with Header := Header.Set req.Header "Authorization" ("Token " ++ r.AuthToken) }

/-- Modelled from the spec: the value of `fields` in `gatherCapacity`; line 119 of the
source holds the bare identifier and no declaration. Section 4.4: the fields include
the size of the volume in bytes. -/
def capacityFields (v : pureVols) : List (String × FieldValue) :=
  [("size", .int v.Size)]

/-- The method `gatherCapacity`. -/
def gatherCapacity (_t : PureFA) (v : pureVols) (acc : Accumulator) : Accumulator :=
  let tags := [("name", v.Name)]
  let fields := capacityFields v
  acc.AddFields "purefa" fields tags

/-- Modelled from the spec: the method `gatherPerformance`, which `Gather` calls and the
source does not contain. Section 4.5: the extraction yields one record or fails. The
record is pushed when there is one; `Gather` calls the method as a statement, so
nothing of a failure reaches `Gather`. -/
def gatherPerformance (env : Env) (t : PureFA) (v : pureVols) (acc : Accumulator) : Accumulator :=
  match env.Performance t v with
  | .ok rec => acc.AddFields rec.measurement rec.fields rec.tags
  | .error _ => acc

/-- The loop of lines 107 to 110, over a list of volumes. -/
def gatherLoop (env : Env) (t : PureFA) : List pureVols → Accumulator → Accumulator
  | [], acc => acc
  | v :: vols, acc => gatherLoop env t vols (gatherPerformance env t v (gatherCapacity t v acc))

/-- The method `Gather`. The result is the accumulator after the call and the error
returned (`none` is nil). The slice `vols` is declared at line 102 and is not assigned
afterwards: the decoder writes to `stats`. -/
def Gather (env : Env) (r : Receiver) (t : PureFA) (acc : Accumulator) :
    Accumulator × Option Error :=
  match listRequest env r t with
  | .error err => (acc, some (.request err))
  | .ok req =>
    match r.Do req with
    | .error err => (acc, some (.transport err))
    | .ok resp =>
      if resp.StatusCode != StatusOK then
        if resp.StatusCode == StatusForbidden then
          (acc, some (.forbidden resp.StatusCode))
        else
          (acc, some (.unexpectedStatus resp.StatusCode))
      else
        let vols : List pureVols := []
        match env.Decode resp.Body with
        | .error err => (acc, some (.decode err))
        | .ok _stats => (gatherLoop env t vols acc, none)

/-! ## A mocked array, for concrete runs -/

/-- The body of the list response of section 8. -/
def vol1Body : String :=
  "[\x7b\"name\":\"vol1\",\"serial\":\"S1\",\"size\":1024,\"created\":\"2020-01-01\"\x7d]"

/-- The volume that `vol1Body` describes. -/
def vol1 : pureVols := { Created := "2020-01-01", Name := "vol1", Serial := "S1", Size := 1024 }

/-- A second volume. -/
def vol2 : pureVols := { Created := "2020-01-02", Name := "vol2", Serial := "S2", Size := 2048 }

/-- A body with both volumes. -/
def twoVolsBody : String :=
  "[\x7b\"name\":\"vol1\",\"serial\":\"S1\",\"size\":1024,\"created\":\"2020-01-01\"\x7d," ++
  "\x7b\"name\":\"vol2\",\"serial\":\"S2\",\"size\":2048,\"created\":\"2020-01-02\"\x7d]"

/-- A decoder that knows three bodies and rejects every other one with the error of
the JSON decoder for the text not-json. -/
def mockDecode (body : String) : Except String (List pureVols) :=
  if body == vol1Body then .ok [vol1]
  else if body == twoVolsBody then .ok [vol1, vol2]
  else if body == "[]" then .ok []
  else .error "invalid character 'o' in literal null (expecting 'u')"

/-- A performance extraction that fails for the volume named vol2. -/
def mockPerformance (_t : PureFA) (v : pureVols) : Except String Record :=
  if v.Name == "vol2" then .error "performance endpoint failed"
  else .ok { measurement := "purefa", fields := [("iops", .int 7)], tags := [("name", v.Name)] }

/-- An environment in which every URL parses. -/
def mockEnv : Env := { parseURL := fun _ => none, Decode := mockDecode, Performance := mockPerformance }

/-- A receiver `r` whose client answers every request with the given response. -/
def mockReceiver (authToken : String) (resp : Response) : Receiver :=
  { AuthToken := authToken, Do := fun _ => .ok resp }

/-- An initialised plugin for the array fa1 with the token tok. -/
def mockPlugin : PureFA := (Init { NewPureFA with Array := "fa1", APIToken := "tok" }).1

/-! ## Lemmas on strings and on Init -/

theorem utf8ByteSize_go_eq_zero (cs : List Char) : String.utf8ByteSize.go cs = 0 ↔ cs = [] := by
  cases cs with
  | nil => simp [String.utf8ByteSize.go]
  | cons c cs =>
    have := Char.utf8Size_pos c
    simp [String.utf8ByteSize.go]
    omega

theorem len_eq_zero (s : String) : len s = 0 ↔ s = "" := by
  cases s with
  | mk cs =>
    simp only [len, String.utf8ByteSize, utf8ByteSize_go_eq_zero]
    constructor
    · intro h; subst h; rfl
    · intro h; exact congrArg String.data h

theorem len_append_right_ne (a b : String) (h : b ≠ "") : len (a ++ b) ≠ 0 := by
  rw [Ne, len_eq_zero]
  intro h2
  apply h
  have h3 := congrArg String.data h2
  simp only [String.data_append] at h3
  have h4 : b.data = [] := (List.append_eq_nil.mp h3).2
  exact String.ext h4

theorem Init_empty_token (t : PureFA) (h : t.APIToken = "") :
    Init t = (t, .returned (some .noToken)) := by
  have h0 : len t.APIToken = 0 := (len_eq_zero _).mpr h
  simp [Init, h0]

theorem Init_nil_client (t : PureFA) (h : t.APIToken ≠ "") (hc : t.client = none) :
    Init t = ({ t with URL := derivedURL t, HTTPTimeout := derivedTimeout t }, .panicked) := by
  have h0 : len t.APIToken ≠ 0 := fun h1 => h ((len_eq_zero _).mp h1)
  cases t with
  | mk a tok u d c =>
    simp only at hc h0
    subst hc
    simp only [Init, derivedURL, derivedTimeout, beq_iff_eq, h0, if_false]
    by_cases hu : len u = 0 <;> by_cases hd : d = 0 <;> simp [hu, hd]

theorem Init_with_client (t : PureFA) (c : Client) (h : t.APIToken ≠ "")
    (hc : t.client = some c) :
    Init t = ({ t with URL := derivedURL t, HTTPTimeout := derivedTimeout t,
                       client := some { c with Timeout := derivedTimeout t } },
              .returned none) := by
  have h0 : len t.APIToken ≠ 0 := fun h1 => h ((len_eq_zero _).mp h1)
  cases t with
  | mk a tok u d c0 =>
    simp only at hc h0
    subst hc
    simp only [Init, derivedURL, derivedTimeout, beq_iff_eq, h0, if_false]
    by_cases hu : len u = 0 <;> by_cases hd : d = 0 <;> simp [hu, hd]

theorem derivedURL_ne (t : PureFA) : len (derivedURL t) ≠ 0 := by
  unfold derivedURL
  split
  · exact len_append_right_ne _ _ (by decide)
  · assumption

theorem derivedTimeout_ne (t : PureFA) : derivedTimeout t ≠ 0 := by
  unfold derivedTimeout
  split
  · decide
  · assumption

theorem derivedURL_of_ne (t : PureFA) (h : len t.URL ≠ 0) : derivedURL t = t.URL := by
  simp [derivedURL, h]

theorem derivedTimeout_of_ne (t : PureFA) (h : t.HTTPTimeout ≠ 0) :
    derivedTimeout t = t.HTTPTimeout := by
  simp [derivedTimeout, h]

/-! ## Init -/

/-- C1: `Init` returns an error exactly when `APIToken` is the empty string, for every
plugin value; and for a non-empty token it returns nil, whatever the array address,
the URL and the timeout are, on a plugin that holds a client (as every plugin made by
`NewPureFA` does). -/
theorem Init_error_iff_empty_token (t : PureFA) :
    ((∃ e, (Init t).2 = .returned (some e)) ↔ t.APIToken = "") ∧
    ((Init t).2 = .returned (some .noToken) ↔ t.APIToken = "") ∧
    (∀ c, t.client = some c → t.APIToken ≠ "" → (Init t).2 = .returned none) := by
  refine ⟨?_, ?_, ?_⟩
  · constructor
    · rintro ⟨e, he⟩
      by_contra hne
      cases hc : t.client with
      | none => rw [Init_nil_client t hne hc] at he; cases he
      | some c => rw [Init_with_client t c hne hc] at he; cases he
    · intro h
      exact ⟨.noToken, by rw [Init_empty_token t h]⟩
  · constructor
    · intro he
      by_contra hne
      cases hc : t.client with
      | none => rw [Init_nil_client t hne hc] at he; cases he
      | some c => rw [Init_with_client t c hne hc] at he; cases he
    · intro h
      rw [Init_empty_token t h]
  · intro c hc hne
    rw [Init_with_client t c hne hc]

/-- Witness for C1: the plugin made by `NewPureFA` with array fa1 and token tok. -/
theorem Init_error_iff_empty_token_witness :
    ({ NewPureFA with Array := "fa1", APIToken := "tok" } : PureFA).APIToken ≠ "" ∧
    (Init { NewPureFA with Array := "fa1", APIToken := "tok" }).2 = .returned none :=
  ⟨by decide,
   (Init_error_iff_empty_token { NewPureFA with Array := "fa1", APIToken := "tok" }).2.2
     _ rfl (by decide)⟩

/-- C2: for a non-empty token, the base URL after `Init` is
"https://" + Array + "/api/1.15" when it was empty, and is the one it was when it was
not empty. -/
theorem Init_base_URL (t : PureFA) (h : t.APIToken ≠ "") :
    (t.URL = "" → (Init t).1.URL = "https://" ++ t.Array ++ "/api/1.15") ∧
    (t.URL ≠ "" → (Init t).1.URL = t.URL) := by
  have key : (Init t).1.URL = derivedURL t := by
    cases hc : t.client with
    | none => rw [Init_nil_client t h hc]
    | some c => rw [Init_with_client t c h hc]
  rw [key]
  constructor
  · intro hu
    simp [derivedURL, (len_eq_zero _).mpr hu]
  · intro hu
    have : len t.URL ≠ 0 := fun h1 => hu ((len_eq_zero _).mp h1)
    simp [derivedURL, this]

/-- Witness for C2: with array fa1 and no URL the base URL becomes
https://fa1/api/1.15. -/
theorem Init_base_URL_witness :
    (Init { NewPureFA with Array := "fa1", APIToken := "tok" }).1.URL = "https://fa1/api/1.15" :=
  (Init_base_URL { NewPureFA with Array := "fa1", APIToken := "tok" } (by decide)).1 rfl

/-- C3: for a non-empty token, on a plugin that holds a client, the request timeout
after `Init` is 4 seconds when it was zero and is unchanged otherwise, and the overall
timeout of the client after `Init` is that resulting request timeout (the transport of
the client is untouched). -/
theorem Init_timeout (t : PureFA) (c : Client) (h : t.APIToken ≠ "") (hc : t.client = some c) :
    (t.HTTPTimeout = 0 → (Init t).1.HTTPTimeout = 4 * Second) ∧
    (t.HTTPTimeout ≠ 0 → (Init t).1.HTTPTimeout = t.HTTPTimeout) ∧
    (Init t).1.client = some { c with Timeout := (Init t).1.HTTPTimeout } := by
  rw [Init_with_client t c h hc]
  refine ⟨?_, ?_, rfl⟩
  · intro hz
    simp [derivedTimeout, hz, Second]
  · intro hz
    simp [derivedTimeout, hz]

/-- Witness for C3: the plugin made by `NewPureFA`, whose timeout is zero, has a 4s
request timeout and a 4s client timeout after `Init`. -/
theorem Init_timeout_witness :
    (Init { NewPureFA with Array := "fa1", APIToken := "tok" }).1.HTTPTimeout = 4 * Second ∧
    (Init { NewPureFA with Array := "fa1", APIToken := "tok" }).1.client =
      some { Transport := { ResponseHeaderTimeout := 3 * Second },
             Timeout := (Init { NewPureFA with Array := "fa1", APIToken := "tok" }).1.HTTPTimeout } :=
  have w := Init_timeout { NewPureFA with Array := "fa1", APIToken := "tok" }
    { Transport := { ResponseHeaderTimeout := 3 * Second }, Timeout := 4 * Second }
    (by decide) rfl
  ⟨w.1 rfl, w.2.2⟩

/-- C10: `Init` is idempotent. When `Init` returns nil, a second call on the resulting
plugin returns nil too and leaves every field (array, token, base URL, request
timeout, client) as the first call left it; when `Init` returns an error, no field
has been modified. -/
theorem Init_idempotent (t : PureFA) :
    ((Init t).2 = .returned none → Init (Init t).1 = ((Init t).1, .returned none)) ∧
    (∀ e, (Init t).2 = .returned (some e) → (Init t).1 = t) := by
  by_cases h : t.APIToken = ""
  · rw [Init_empty_token t h]
    exact ⟨fun h1 => (by cases h1), fun _ _ => rfl⟩
  · cases hc : t.client with
    | none =>
      rw [Init_nil_client t h hc]
      exact ⟨fun h1 => (by cases h1), fun _ h1 => (by cases h1)⟩
    | some c =>
      rw [Init_with_client t c h hc]
      refine ⟨fun _ => ?_, fun _ h1 => (by cases h1)⟩
      have hu : len (derivedURL t) ≠ 0 := derivedURL_ne t
      have hd : derivedTimeout t ≠ 0 := derivedTimeout_ne t
      let t1 : PureFA :=
        { t with URL := derivedURL t, HTTPTimeout := derivedTimeout t,
                 client := some { c with Timeout := derivedTimeout t } }
      have h2 := Init_with_client t1 { c with Timeout := derivedTimeout t } h rfl
      have e1 : derivedURL t1 = derivedURL t := derivedURL_of_ne t1 hu
      have e2 : derivedTimeout t1 = derivedTimeout t := derivedTimeout_of_ne t1 hd
      rw [e1, e2] at h2
      exact h2

/-- Witness for C10: a second `Init` on the plugin for fa1 changes nothing. -/
theorem Init_idempotent_witness :
    Init (Init { NewPureFA with Array := "fa1", APIToken := "tok" }).1 =
      ((Init { NewPureFA with Array := "fa1", APIToken := "tok" }).1, .returned none) :=
  (Init_idempotent { NewPureFA with Array := "fa1", APIToken := "tok" }).1 (by decide)

/-! ## Gather: the list request and the status of the response -/

theorem Gather_of_response (env : Env) (r : Receiver) (t : PureFA) (acc : Accumulator)
    (req : Request) (resp : Response)
    (hreq : listRequest env r t = .ok req) (hdo : r.Do req = .ok resp) :
    Gather env r t acc =
      if resp.StatusCode = 200 then
        match env.Decode resp.Body with
        | .error err => (acc, some (.decode err))
        | .ok _ => (acc, none)
      else if resp.StatusCode = 403 then (acc, some (.forbidden resp.StatusCode))
      else (acc, some (.unexpectedStatus resp.StatusCode)) := by
  simp only [Gather, hreq, hdo, StatusOK, StatusForbidden, gatherLoop]
  by_cases h1 : resp.StatusCode = 200
  · simp [h1]
  · by_cases h2 : resp.StatusCode = 403 <;> simp [h1, h2]

theorem listRequest_of_parse (env : Env) (r : Receiver) (t : PureFA)
    (h : env.parseURL (t.URL ++ "/volume") = none) :
    listRequest env r t =
      .ok { Method := "GET", URL := t.URL ++ "/volume",
            Header := [("Authorization", "Token " ++ r.AuthToken)] } := by
  simp [listRequest, NewRequest, h, Header.Set]

/-- C4: when the list response has status 403, whatever its body and whatever the
configuration, `Gather` returns the Forbidden error (whose text asks to verify the
token, and which is not the unexpected-status error) and the accumulator is as it was
before the call. -/
theorem Gather_forbidden (env : Env) (r : Receiver) (t : PureFA) (acc : Accumulator)
    (req : Request) (resp : Response)
    (hreq : listRequest env r t = .ok req) (hdo : r.Do req = .ok resp)
    (hst : resp.StatusCode = 403) :
    Gather env r t acc = (acc, some (.forbidden 403)) ∧
    (Error.forbidden 403).msg =
      "Pure Array responded with 403 [Forbidden], verify your authToken" ∧
    (∀ code, (Gather env r t acc).2 ≠ some (.unexpectedStatus code)) := by
  have h := Gather_of_response env r t acc req resp hreq hdo
  simp only [hst] at h
  rw [h]
  refine ⟨by simp, by decide, ?_⟩
  intro code hc
  simp at hc

/-- Witness for C4: a 403 response with the body not-json, no record pushed. -/
theorem Gather_forbidden_witness :
    Gather mockEnv (mockReceiver "tok" { StatusCode := 403, Body := "not-json" }) mockPlugin [] =
      ([], some (.forbidden 403)) :=
  (Gather_forbidden mockEnv (mockReceiver "tok" { StatusCode := 403, Body := "not-json" })
    mockPlugin [] _ { StatusCode := 403, Body := "not-json" }
    (listRequest_of_parse _ _ _ rfl) rfl rfl).1

/-- C5: when the status of the list response is neither 200 nor 403, `Gather` returns
the unexpected-status error holding exactly that status, and the accumulator is as it
was before the call; when the status is 200, `Gather` returns neither the Forbidden
error nor the unexpected-status error. -/
theorem Gather_unexpected_status (env : Env) (r : Receiver) (t : PureFA) (acc : Accumulator)
    (req : Request) (resp : Response)
    (hreq : listRequest env r t = .ok req) (hdo : r.Do req = .ok resp) :
    (resp.StatusCode ≠ 200 → resp.StatusCode ≠ 403 →
      Gather env r t acc = (acc, some (.unexpectedStatus resp.StatusCode)) ∧
      (Error.unexpectedStatus resp.StatusCode).msg =
        "Pure Array responded with unexpected status code " ++ toString resp.StatusCode) ∧
    (resp.StatusCode = 200 → ∀ code,
      (Gather env r t acc).2 ≠ some (.forbidden code) ∧
      (Gather env r t acc).2 ≠ some (.unexpectedStatus code)) := by
  have h := Gather_of_response env r t acc req resp hreq hdo
  constructor
  · intro h1 h2
    rw [h]
    simp [h1, h2, Error.msg]
  · intro h1 code
    rw [h]
    simp only [h1, if_true]
    cases env.Decode resp.Body <;> simp

/-- Witness for C5: a 500 response gives the unexpected-status error for 500. -/
theorem Gather_unexpected_status_witness :
    Gather mockEnv (mockReceiver "tok" { StatusCode := 500, Body := "" }) mockPlugin [] =
      ([], some (.unexpectedStatus 500)) :=
  ((Gather_unexpected_status mockEnv (mockReceiver "tok" { StatusCode := 500, Body := "" })
    mockPlugin [] _ { StatusCode := 500, Body := "" }
    (listRequest_of_parse _ _ _ rfl) rfl).1 (by decide) (by decide)).1

/-- C6: when the list response has status 200 and the decoder fails on its body,
`Gather` returns the decode error, which holds the error of the decoder and whose text
ends with it, and the accumulator is as it was before the call. -/
theorem Gather_decode_error (env : Env) (r : Receiver) (t : PureFA) (acc : Accumulator)
    (req : Request) (resp : Response) (cause : String)
    (hreq : listRequest env r t = .ok req) (hdo : r.Do req = .ok resp)
    (hst : resp.StatusCode = 200) (hdec : env.Decode resp.Body = .error cause) :
    Gather env r t acc = (acc, some (.decode cause)) ∧
    (Error.decode cause).msg = "unable to decode Pure volume response: " ++ cause := by
  have h := Gather_of_response env r t acc req resp hreq hdo
  rw [h]
  simp [hst, hdec, Error.msg]

/-- Witness for C6: the body not-json. -/
theorem Gather_decode_error_witness :
    Gather mockEnv (mockReceiver "tok" { StatusCode := 200, Body := "not-json" }) mockPlugin [] =
      ([], some (.decode "invalid character 'o' in literal null (expecting 'u')")) :=
  (Gather_decode_error mockEnv (mockReceiver "tok" { StatusCode := 200, Body := "not-json" })
    mockPlugin [] _ { StatusCode := 200, Body := "not-json" } _
    (listRequest_of_parse _ _ _ rfl) rfl rfl rfl).1

/-! ## Gather: the request header, the decoded volumes and the loop -/

theorem Gather_pushes_nothing (env : Env) (r : Receiver) (t : PureFA) (acc : Accumulator) :
    (Gather env r t acc).1 = acc := by
  unfold Gather
  split
  · rfl
  · split
    · rfl
    · split
      · split <;> rfl
      · split <;> rfl

/-- C7, evaluated at the list response of section 8: the decoder yields the volume
vol1 of size 1024 for the body, and `Gather` returns nil with an accumulator that is
still empty, so no capacity record tagged name=vol1 has been pushed. The decoded
volumes are stored in `stats`; the loop ranges over `vols`, which is still nil. -/
theorem Gather_vol1_pushes_no_record :
    mockEnv.Decode vol1Body = .ok [vol1] ∧
    Gather mockEnv (mockReceiver "tok" { StatusCode := 200, Body := vol1Body }) mockPlugin [] =
      ([], none) :=
  ⟨rfl, by decide⟩

/-- C8, evaluated at a list response with status 200 whose body holds the two volumes
vol1 and vol2, where the performance extraction of vol2 fails: `Gather` returns nil,
not an error, and the accumulator is still empty, so the capacity records of vol1 and
vol2 and the performance record of vol1 have not been pushed. The result is the same
for every performance extraction, since the loop ranges over `vols`, which is nil, and
line 112 returns nil. -/
theorem Gather_two_vols_returns_nil :
    mockEnv.Decode twoVolsBody = .ok [vol1, vol2] ∧
    mockEnv.Performance mockPlugin vol2 = .error "performance endpoint failed" ∧
    Gather mockEnv (mockReceiver "tok" { StatusCode := 200, Body := twoVolsBody })
      mockPlugin [] = ([], none) ∧
    ∀ perf : PureFA → pureVols → Except String Record,
      Gather { mockEnv with Performance := perf }
        (mockReceiver "tok" { StatusCode := 200, Body := twoVolsBody }) mockPlugin [] =
        ([], none) := by
  refine ⟨rfl, rfl, by decide, ?_⟩
  intro perf
  rw [Gather_of_response { mockEnv with Performance := perf }
    (mockReceiver "tok" { StatusCode := 200, Body := twoVolsBody }) mockPlugin []
    _ { StatusCode := 200, Body := twoVolsBody } (listRequest_of_parse _ _ _ rfl) rfl]
  rfl

/-- C9, evaluated on the plugin initialised with the token tok: the list request is a
GET for the base URL followed by /volume, and its Authorization header is the text
Token followed by `r.AuthToken` (empty here), not by the `APIToken` that `Init`
checked. -/
theorem listRequest_sends_AuthToken :
    (Init { NewPureFA with Array := "fa1", APIToken := "tok" }).2 = .returned none ∧
    mockPlugin.APIToken = "tok" ∧
    listRequest mockEnv (mockReceiver "" { StatusCode := 200, Body := "[]" }) mockPlugin =
      .ok { Method := "GET", URL := mockPlugin.URL ++ "/volume",
            Header := [("Authorization", "Token ")] } ∧
    ("Token " : String) ≠ "Token " ++ mockPlugin.APIToken :=
  ⟨by decide, by decide, rfl, by decide⟩

end purefa
